import Mathlib

/-!
# CongestionUnawareNetworkApi

A shallow embedding of
`astra-sim/network_frontend/analytical/congestion_unaware/CongestionUnawareNetworkApi.cc`:
the static `set_topology`, the constructor and `sim_send`.

The chunk-id generator, the callback tracker and the topology are collaborators
whose code is elsewhere; `sim_send` is embedded over an arbitrary implementation
of them (`Collaborators`), and every call it makes to the generator and to the
tracker is recorded in order in `World.calls`.
-/

namespace AstraSim

/-! ## Values -/

/-- An untyped pointer (`void*`, `sim_request*`), represented by its address. -/
abbrev Ptr := Nat

/-- A completion handler `void (*)(void*)`, represented by its address. -/
abbrev MsgHandler := Nat

/-- The identifier returned by `create_send_chunk_id`. -/
abbrev ChunkId := Nat

/-- A bandwidth value; the code only copies such values, it never computes with them. -/
abbrev Bandwidth := Nat

/-- Modelled from the spec: the time units of the scheduler's delay (the enum
declaration is not in the source file; the spec says a delay is a time-unit/value
pair and that `Topology.send` has nanosecond resolution). Only `NS` is used. -/
inductive time_type_e where
  | SE
  | MS
  | US
  | NS
  | FS
  deriving DecidableEq

/-- The value of a `double` that holds a non-negative integer, given exactly. -/
abbrev Double := Nat

/-- The delay handed to `sim_schedule`: a unit and a magnitude. -/
structure timespec_t where
  time_res : time_type_e
  time_val : Double
  deriving DecidableEq

/-- The least shift `e` (searched upwards from `e`, at most `fuel` steps) with
`n / 2 ^ e < 2 ^ 53`: the number of low bits a 53-bit significand cannot hold. -/
def significand_shift : Nat → Nat → Nat → Nat
  | 0, _, e => e
  | fuel + 1, n, e => if n / 2 ^ e < 2 ^ 53 then e else significand_shift fuel n (e + 1)

/-- The conversion `static_cast<double>(x)` of an unsigned 64-bit integer: the nearest
binary64 value, ties to the even significand. Exact below `2 ^ 53`. -/
def u64_to_double (n : Nat) : Double :=
  let e := significand_shift 11 n 0
  let q := n / 2 ^ e
  let r := n % 2 ^ e
  if 2 * r < 2 ^ e then q * 2 ^ e
  else if 2 * r = 2 ^ e ∧ q % 2 = 0 then q * 2 ^ e
  else (q + 1) * 2 ^ e

/-- The topology collaborator (`NetworkAnalyticalCongestionUnaware::Topology`), seen
through the three methods the file calls; `send` maps (src, dst, chunk size) to a
delay in nanoseconds. -/
structure Topology where
  get_dims_count : Int
  get_bandwidth_per_dim : List Bandwidth
  send : Int → Int → Nat → Nat

/-- The payload of an arrival event: `std::tuple(tag, src, dst, count, chunk_id)`. -/
abbrev ChunkArrivalArg := Int × Int × Int × Nat × ChunkId

/-- The callbacks that can be handed to `sim_schedule`. -/
inductive EventCallback where
  | process_chunk_arrival
  | other (address : Nat)
  deriving DecidableEq

/-- One request made to the scheduler: delay, callback, payload. -/
structure ScheduledEvent where
  delta : timespec_t
  fun_ptr : EventCallback
  fun_arg : ChunkArrivalArg
  deriving DecidableEq

/-- The calls to the chunk-id generator and to the callback tracker, and the
invocation of a completion handler; `E` is the type of entry references. -/
inductive Call (E : Type) where
  | create_send_chunk_id (tag src dst : Int) (count : Nat)
  | search_entry (tag src dst : Int) (count : Nat) (chunk_id : ChunkId)
  | create_new_entry (tag src dst : Int) (count : Nat) (chunk_id : ChunkId)
  | register_send_callback (entry : E) (handler : MsgHandler) (arg : Ptr)
  | register_recv_callback (entry : E) (handler : MsgHandler) (arg : Ptr)
  | invoke_handler (handler : MsgHandler) (arg : Ptr)
  deriving DecidableEq

/-- Whether a call is `create_send_chunk_id`. -/
def Call.is_create_send_chunk_id {E : Type} : Call E → Bool
  | .create_send_chunk_id _ _ _ _ => true
  | _ => false

/-- Whether a call is `search_entry`. -/
def Call.is_search_entry {E : Type} : Call E → Bool
  | .search_entry _ _ _ _ _ => true
  | _ => false

/-- Whether a call is `create_new_entry`. -/
def Call.is_create_new_entry {E : Type} : Call E → Bool
  | .create_new_entry _ _ _ _ _ => true
  | _ => false

/-- Whether a call is `register_send_callback`. -/
def Call.is_register_send_callback {E : Type} : Call E → Bool
  | .register_send_callback _ _ _ => true
  | _ => false

/-- Whether a call is `register_recv_callback`. -/
def Call.is_register_recv_callback {E : Type} : Call E → Bool
  | .register_recv_callback _ _ _ => true
  | _ => false

/-- Whether a call is the invocation of a completion handler. -/
def Call.is_invoke_handler {E : Type} : Call E → Bool
  | .invoke_handler _ _ => true
  | _ => false

/-! ## Collaborators and state -/

/-- The chunk-id generator and the callback tracker, as `sim_send` uses them: `G` is
the generator's state, `T` the tracker's, `E` the entry references
(`CallbackTrackerEntry*`). `register_send_callback` is the method of an entry; it
changes the tracker that owns the entry. -/
structure Collaborators (G T E : Type) where
  create_send_chunk_id : G → Int → Int → Int → Nat → ChunkId × G
  search_entry : T → Int → Int → Int → Nat → ChunkId → Option E
  create_new_entry : T → Int → Int → Int → Nat → ChunkId → E × T
  register_send_callback : T → E → MsgHandler → Ptr → T

/-- The state the file reads and writes: the static `topology` pointer (`none` is
the null pointer) with the cached `dims_count` and `bandwidth_per_dim`, the
generator, the tracker, the requests made to the scheduler in order, and the calls
made to the generator and the tracker in order. -/
structure World (G T E : Type) where
  topology : Option Topology
  dims_count : Int
  bandwidth_per_dim : List Bandwidth
  chunk_id_generator : G
  callback_tracker : T
  event_queue : List ScheduledEvent
  calls : List (Call E)

/-- How a call ends: it returns a value, an `assert` fails, or a null pointer is
dereferenced. -/
inductive Result (α : Type) where
  | ok (value : α)
  | assertion_failed
  | null_dereference
  deriving DecidableEq

/-- Modelled from the spec: the base class `CommonNetworkApi`, whose code is not in
the source file; it is constructed from the rank, which `sim_comm_get_rank` returns
(the spec's rank query of the surrounding runtime). -/
structure CommonNetworkApi where
  rank : Int
  deriving DecidableEq

/-- Modelled from the spec: the rank query `sim_comm_get_rank() -> integer`. -/
def CommonNetworkApi.sim_comm_get_rank (self : CommonNetworkApi) : Int :=
  self.rank

/-- An object of the class: its base-class part. -/
structure CongestionUnawareNetworkApi where
  base : CommonNetworkApi
  deriving DecidableEq

/-- The rank query, inherited from the base class. -/
def CongestionUnawareNetworkApi.sim_comm_get_rank (self : CongestionUnawareNetworkApi) : Int :=
  self.base.sim_comm_get_rank

/-! ## The functions of the file -/

/-- The static `set_topology(topology_ptr)`: asserts the pointer is not null, moves it
into the static `topology`, then caches the dimension count and the bandwidths read
through the stored pointer. Returns the state at the return or at the failure. -/
def set_topology {G T E : Type} (w : World G T E) (topology_ptr : Option Topology) :
    World G T E × Result Unit :=
  match topology_ptr with
  | none => (w, Result.assertion_failed)
  | some t =>
    -- move topology
    let w1 := { w with topology := some t }
    -- set topology-related values
    match w1.topology with
    | none => (w1, Result.null_dereference)
    | some stored =>
      let w2 := { w1 with dims_count := stored.get_dims_count }
      let w3 := { w2 with bandwidth_per_dim := stored.get_bandwidth_per_dim }
      (w3, Result.ok ())

/-- The constructor: the base class is initialised with `rank`, then
`assert(rank >= 0)`. -/
def CongestionUnawareNetworkApi.construct (rank : Int) : Result CongestionUnawareNetworkApi :=
  let base : CommonNetworkApi := { rank := rank }
  if rank ≥ 0 then Result.ok { base := base } else Result.assertion_failed

/-- The call `chunk_id_generator.create_send_chunk_id(tag, src, dst, count)`. -/
def call_create_send_chunk_id {G T E : Type} (c : Collaborators G T E) (w : World G T E)
    (tag src dst : Int) (count : Nat) : ChunkId × World G T E :=
  let r := c.create_send_chunk_id w.chunk_id_generator tag src dst count
  (r.1, { w with chunk_id_generator := r.2,
                 calls := w.calls ++ [Call.create_send_chunk_id tag src dst count] })

/-- The call `callback_tracker.search_entry(tag, src, dst, count, chunk_id)`. -/
def call_search_entry {G T E : Type} (c : Collaborators G T E) (w : World G T E)
    (tag src dst : Int) (count : Nat) (chunk_id : ChunkId) : Option E × World G T E :=
  (c.search_entry w.callback_tracker tag src dst count chunk_id,
   { w with calls := w.calls ++ [Call.search_entry tag src dst count chunk_id] })

/-- The call `callback_tracker.create_new_entry(tag, src, dst, count, chunk_id)`. -/
def call_create_new_entry {G T E : Type} (c : Collaborators G T E) (w : World G T E)
    (tag src dst : Int) (count : Nat) (chunk_id : ChunkId) : E × World G T E :=
  let r := c.create_new_entry w.callback_tracker tag src dst count chunk_id
  (r.1, { w with callback_tracker := r.2,
                 calls := w.calls ++ [Call.create_new_entry tag src dst count chunk_id] })

/-- The call `entry->register_send_callback(msg_handler, fun_arg)`. -/
def call_register_send_callback {G T E : Type} (c : Collaborators G T E) (w : World G T E)
    (entry : E) (msg_handler : MsgHandler) (fun_arg : Ptr) : World G T E :=
  { w with callback_tracker := c.register_send_callback w.callback_tracker entry msg_handler fun_arg,
           calls := w.calls ++ [Call.register_send_callback entry msg_handler fun_arg] }

/-- Modelled from the spec: the scheduler's `schedule(delay, callback, opaque_arg)`,
whose code is not in the source file; the request is queued after the earlier ones. -/
def sim_schedule {G T E : Type} (w : World G T E) (delta : timespec_t)
    (fun_ptr : EventCallback) (fun_arg : ChunkArrivalArg) : World G T E :=
  { w with event_queue := w.event_queue ++ [{ delta := delta, fun_ptr := fun_ptr, fun_arg := fun_arg }] }

/-- The method `sim_send(buffer, count, type, dst, tag, request, msg_handler, fun_arg)`. -/
def sim_send {G T E : Type} (c : Collaborators G T E) (self : CongestionUnawareNetworkApi)
    (w : World G T E) (buffer : Ptr) (count : Nat) (type : Int) (dst : Int) (tag : Int)
    (request : Ptr) (msg_handler : MsgHandler) (fun_arg : Ptr) : World G T E × Result Int :=
  -- query chunk id
  let src := self.sim_comm_get_rank
  let g := call_create_send_chunk_id c w tag src dst count
  let chunk_id := g.1
  -- search tracker
  let s := call_search_entry c g.2 tag src dst count chunk_id
  let w3 :=
    match s.1 with
    | some entry =>
      -- recv operation already issued: add send event handler to the tracker
      call_register_send_callback c s.2 entry msg_handler fun_arg
    | none =>
      -- recv operation not issued yet: create new entry and insert send callback
      let n := call_create_new_entry c s.2 tag src dst count chunk_id
      call_register_send_callback c n.2 n.1 msg_handler fun_arg
  -- create chunk
  let chunk_arrival_arg : ChunkArrivalArg := (tag, src, dst, count, chunk_id)
  -- compute send communication delay
  match w3.topology with
  | none => (w3, Result.null_dereference)
  | some topology =>
    let send_delay_ns := topology.send src dst count
    let send_delay := u64_to_double send_delay_ns
    let delta : timespec_t := { time_res := time_type_e.NS, time_val := send_delay }
    -- register chunk arrival event after send communication delay
    let w4 := sim_schedule w3 delta EventCallback.process_chunk_arrival chunk_arrival_arg
    (w4, Result.ok 0)

/-- The calls made between an earlier and a later state. -/
def calls_since {G T E : Type} (before after : World G T E) : List (Call E) :=
  after.calls.drop before.calls.length

/-- The scheduler requests made between an earlier and a later state. -/
def events_since {G T E : Type} (before after : World G T E) : List ScheduledEvent :=
  after.event_queue.drop before.event_queue.length

/-- The arguments of one `sim_send` call, with the object it is called on. -/
structure SendRequest where
  self : CongestionUnawareNetworkApi
  buffer : Ptr
  count : Nat
  type : Int
  dst : Int
  tag : Int
  request : Ptr
  msg_handler : MsgHandler
  fun_arg : Ptr

/-- A sequence of `sim_send` calls issued one after the other; the state after the
last one. -/
def sim_send_all {G T E : Type} (c : Collaborators G T E) :
    World G T E → List SendRequest → World G T E
  | w, [] => w
  | w, r :: rs =>
    sim_send_all c
      (sim_send c r.self w r.buffer r.count r.type r.dst r.tag r.request r.msg_handler r.fun_arg).1
      rs

/-! ## A concrete generator and tracker -/

/-- Modelled from the spec: a tracker entry (the class `CallbackTrackerEntry` is not
in the source file): the transfer key, the chunk id, and the ordered send-side and
receive-side callbacks, each a function with its opaque argument. -/
structure CallbackTrackerEntry where
  tag : Int
  src : Int
  dst : Int
  count : Nat
  chunk_id : ChunkId
  send_callbacks : List (MsgHandler × Ptr)
  recv_callbacks : List (MsgHandler × Ptr)
  deriving DecidableEq

/-- Modelled from the spec: the tracker (the class `CallbackTracker` is not in the
source file), its entries in order of creation; an entry is referred to by its
position. -/
abbrev CallbackTracker := List CallbackTrackerEntry

/-- Whether an entry has the given transfer key. -/
def CallbackTrackerEntry.has_key (e : CallbackTrackerEntry) (tag src dst : Int) (count : Nat) :
    Bool :=
  decide (e.tag = tag) && decide (e.src = src) && decide (e.dst = dst) && decide (e.count = count)

/-- The position, counted from `i`, of the first entry with the given key. -/
def CallbackTracker.first_with_key : CallbackTracker → Nat → Int → Int → Int → Nat → Option Nat
  | [], _, _, _, _, _ => none
  | e :: es, i, tag, src, dst, count =>
    if e.has_key tag src dst count then some i
    else CallbackTracker.first_with_key es (i + 1) tag src dst count

/-- Modelled from the spec: `search_entry` returns the existing entry for the
transfer key, or empty; the chunk id is carried through but the lookup is by key. -/
def CallbackTracker.search_entry (t : CallbackTracker) (tag src dst : Int) (count : Nat)
    (_chunk_id : ChunkId) : Option Nat :=
  t.first_with_key 0 tag src dst count

/-- Modelled from the spec: `create_new_entry` inserts and returns a new entry. -/
def CallbackTracker.create_new_entry (t : CallbackTracker) (tag src dst : Int) (count : Nat)
    (chunk_id : ChunkId) : Nat × CallbackTracker :=
  (t.length, t ++ [{ tag := tag, src := src, dst := dst, count := count, chunk_id := chunk_id,
                     send_callbacks := [], recv_callbacks := [] }])

/-- Modelled from the spec: `register_send_callback(handler, arg)` on an entry appends
to the send-side callback sequence of that entry. -/
def CallbackTracker.register_send_callback :
    CallbackTracker → Nat → MsgHandler → Ptr → CallbackTracker
  | [], _, _, _ => []
  | e :: es, 0, handler, arg =>
    { e with send_callbacks := e.send_callbacks ++ [(handler, arg)] } :: es
  | e :: es, i + 1, handler, arg =>
    e :: CallbackTracker.register_send_callback es i handler arg

/-- Modelled from the spec: the generator (the class `ChunkIdGenerator` is not in the
source file) remembers the keys of the sends issued so far. -/
abbrev ChunkIdGenerator := List (Int × Int × Int × Nat)

/-- Modelled from the spec: `create_send_chunk_id(tag, src, dst, size)` returns an
identifier that increases with each send of the same key. -/
def ChunkIdGenerator.create_send_chunk_id (g : ChunkIdGenerator) (tag src dst : Int)
    (count : Nat) : ChunkId × ChunkIdGenerator :=
  (g.count (tag, src, dst, count), g ++ [(tag, src, dst, count)])

/-- The concrete generator and tracker as collaborators of `sim_send`. -/
def tracker_collaborators : Collaborators ChunkIdGenerator CallbackTracker Nat where
  create_send_chunk_id := ChunkIdGenerator.create_send_chunk_id
  search_entry := CallbackTracker.search_entry
  create_new_entry := CallbackTracker.create_new_entry
  register_send_callback := CallbackTracker.register_send_callback

/-- A two-dimensional topology whose delay is 10 ns per byte. -/
def ring_topology : Topology where
  get_dims_count := 2
  get_bandwidth_per_dim := [50, 25]
  send := fun _ _ count => 10 * count

/-- A three-dimensional topology whose delay is 3 ns per byte. -/
def mesh_topology : Topology where
  get_dims_count := 3
  get_bandwidth_per_dim := [100, 100, 40]
  send := fun _ _ count => 3 * count

/-- The state before any topology is set: null pointer, nothing tracked or scheduled. -/
def initial_world : World ChunkIdGenerator CallbackTracker Nat where
  topology := none
  dims_count := 0
  bandwidth_per_dim := []
  chunk_id_generator := []
  callback_tracker := []
  event_queue := []
  calls := []

/-- The state after `set_topology(ring_topology)` with nothing tracked: a send finds
no entry. -/
def fresh_world : World ChunkIdGenerator CallbackTracker Nat :=
  (set_topology initial_world (some ring_topology)).1

/-- The state after `set_topology(ring_topology)` in which a receive of 64 bytes from
rank 2 to rank 3 with tag 1 is already tracked: a matching send finds its entry. -/
def pending_recv_world : World ChunkIdGenerator CallbackTracker Nat :=
  { fresh_world with
    callback_tracker := [{ tag := 1, src := 2, dst := 3, count := 64, chunk_id := 0,
                           send_callbacks := [], recv_callbacks := [(700, 701)] }] }

/-- The object of rank 2. -/
def rank_two : CongestionUnawareNetworkApi := { base := { rank := 2 } }

/-! ## What one `sim_send` call does -/

section
variable {G T E : Type} (c : Collaborators G T E) (self : CongestionUnawareNetworkApi)
  (w : World G T E) (buffer : Ptr) (count : Nat) (type dst tag : Int) (request : Ptr)
  (msg_handler : MsgHandler) (fun_arg : Ptr)

/-- The calls of `sim_send` when the search finds `entry`: generator, search, register. -/
theorem sim_send_calls_found (entry : E)
    (h : c.search_entry w.callback_tracker tag self.sim_comm_get_rank dst count
      (c.create_send_chunk_id w.chunk_id_generator tag self.sim_comm_get_rank dst count).1
      = some entry) :
    (sim_send c self w buffer count type dst tag request msg_handler fun_arg).1.calls =
      w.calls ++
        [Call.create_send_chunk_id tag self.sim_comm_get_rank dst count,
         Call.search_entry tag self.sim_comm_get_rank dst count
           (c.create_send_chunk_id w.chunk_id_generator tag self.sim_comm_get_rank dst count).1,
         Call.register_send_callback entry msg_handler fun_arg] := by
  simp only [sim_send, call_search_entry, call_create_send_chunk_id, h,
    call_register_send_callback, sim_schedule]
  cases w.topology <;> simp

/-- The calls of `sim_send` when the search finds nothing: generator, search, create,
register on the created entry. -/
theorem sim_send_calls_not_found
    (h : c.search_entry w.callback_tracker tag self.sim_comm_get_rank dst count
      (c.create_send_chunk_id w.chunk_id_generator tag self.sim_comm_get_rank dst count).1
      = none) :
    (sim_send c self w buffer count type dst tag request msg_handler fun_arg).1.calls =
      w.calls ++
        [Call.create_send_chunk_id tag self.sim_comm_get_rank dst count,
         Call.search_entry tag self.sim_comm_get_rank dst count
           (c.create_send_chunk_id w.chunk_id_generator tag self.sim_comm_get_rank dst count).1,
         Call.create_new_entry tag self.sim_comm_get_rank dst count
           (c.create_send_chunk_id w.chunk_id_generator tag self.sim_comm_get_rank dst count).1,
         Call.register_send_callback
           (c.create_new_entry w.callback_tracker tag self.sim_comm_get_rank dst count
             (c.create_send_chunk_id w.chunk_id_generator tag self.sim_comm_get_rank dst
               count).1).1
           msg_handler fun_arg] := by
  simp only [sim_send, call_search_entry, call_create_send_chunk_id, h,
    call_register_send_callback, call_create_new_entry, sim_schedule]
  cases w.topology <;> simp

/-- The tracker after `sim_send` when the search finds `entry`. -/
theorem sim_send_tracker_found (entry : E)
    (h : c.search_entry w.callback_tracker tag self.sim_comm_get_rank dst count
      (c.create_send_chunk_id w.chunk_id_generator tag self.sim_comm_get_rank dst count).1
      = some entry) :
    (sim_send c self w buffer count type dst tag request msg_handler fun_arg).1.callback_tracker =
      c.register_send_callback w.callback_tracker entry msg_handler fun_arg := by
  simp only [sim_send, call_search_entry, call_create_send_chunk_id, h,
    call_register_send_callback, sim_schedule]
  cases w.topology <;> simp

/-- The tracker after `sim_send` when the search finds nothing. -/
theorem sim_send_tracker_not_found
    (h : c.search_entry w.callback_tracker tag self.sim_comm_get_rank dst count
      (c.create_send_chunk_id w.chunk_id_generator tag self.sim_comm_get_rank dst count).1
      = none) :
    (sim_send c self w buffer count type dst tag request msg_handler fun_arg).1.callback_tracker =
      c.register_send_callback
        (c.create_new_entry w.callback_tracker tag self.sim_comm_get_rank dst count
          (c.create_send_chunk_id w.chunk_id_generator tag self.sim_comm_get_rank dst
            count).1).2
        (c.create_new_entry w.callback_tracker tag self.sim_comm_get_rank dst count
          (c.create_send_chunk_id w.chunk_id_generator tag self.sim_comm_get_rank dst
            count).1).1
        msg_handler fun_arg := by
  simp only [sim_send, call_search_entry, call_create_send_chunk_id, h,
    call_register_send_callback, call_create_new_entry, sim_schedule]
  cases w.topology <;> simp

/-- The static topology and its cached values are not written by `sim_send`. -/
theorem sim_send_statics :
    (sim_send c self w buffer count type dst tag request msg_handler fun_arg).1.topology
        = w.topology ∧
      (sim_send c self w buffer count type dst tag request msg_handler fun_arg).1.dims_count
        = w.dims_count ∧
      (sim_send c self w buffer count type dst tag request msg_handler fun_arg).1.bandwidth_per_dim
        = w.bandwidth_per_dim := by
  simp only [sim_send, call_search_entry, call_create_send_chunk_id,
    call_register_send_callback, call_create_new_entry, sim_schedule]
  cases c.search_entry w.callback_tracker tag self.sim_comm_get_rank dst count
      (c.create_send_chunk_id w.chunk_id_generator tag self.sim_comm_get_rank dst count).1 <;>
    cases h : w.topology <;> simp [h]

/-- With a topology set, `sim_send` queues one request after the earlier ones and
returns 0. -/
theorem sim_send_queue_and_result (t : Topology) (h : w.topology = some t) :
    (sim_send c self w buffer count type dst tag request msg_handler fun_arg).1.event_queue =
        w.event_queue ++
          [{ delta := { time_res := time_type_e.NS,
                        time_val := u64_to_double (t.send self.sim_comm_get_rank dst count) },
             fun_ptr := EventCallback.process_chunk_arrival,
             fun_arg := (tag, self.sim_comm_get_rank, dst, count,
               (c.create_send_chunk_id w.chunk_id_generator tag self.sim_comm_get_rank dst
                 count).1) }] ∧
      (sim_send c self w buffer count type dst tag request msg_handler fun_arg).2
        = Result.ok 0 := by
  simp only [sim_send, call_search_entry, call_create_send_chunk_id,
    call_register_send_callback, call_create_new_entry, sim_schedule]
  cases c.search_entry w.callback_tracker tag self.sim_comm_get_rank dst count
      (c.create_send_chunk_id w.chunk_id_generator tag self.sim_comm_get_rank dst count).1 <;>
    simp [h]

end

/-- The calls made since `w` when the later log is the log of `w` followed by `l`. -/
theorem calls_since_append {G T E : Type} (w after : World G T E) (l : List (Call E))
    (h : after.calls = w.calls ++ l) : calls_since w after = l := by
  simp [calls_since, h]

/-- The requests queued since `w` when the later queue is the queue of `w` followed by `l`. -/
theorem events_since_append {G T E : Type} (w after : World G T E) (l : List ScheduledEvent)
    (h : after.event_queue = w.event_queue ++ l) : events_since w after = l := by
  simp [events_since, h]

/-- Below `2 ^ 53` the conversion to `double` is exact. -/
theorem u64_to_double_exact (n : Nat) (h : n < 2 ^ 53) : u64_to_double n = n := by
  have hs : significand_shift 11 n 0 = 0 := by
    have h0 : n / 2 ^ 0 < 2 ^ 53 := by simpa using h
    rw [significand_shift, if_pos h0]
  simp [u64_to_double, hs, Nat.mod_one]

/-- A sequence of `sim_send` calls leaves the static topology and its cached values
as they were. -/
theorem sim_send_all_statics {G T E : Type} (c : Collaborators G T E) (rs : List SendRequest) :
    ∀ w : World G T E,
      (sim_send_all c w rs).topology = w.topology ∧
        (sim_send_all c w rs).dims_count = w.dims_count ∧
        (sim_send_all c w rs).bandwidth_per_dim = w.bandwidth_per_dim := by
  induction rs with
  | nil => intro w; simp [sim_send_all]
  | cons r rs ih =>
    intro w
    have h1 := sim_send_statics c r.self w r.buffer r.count r.type r.dst r.tag r.request
      r.msg_handler r.fun_arg
    have h2 := ih
      (sim_send c r.self w r.buffer r.count r.type r.dst r.tag r.request r.msg_handler
        r.fun_arg).1
    simp only [sim_send_all]
    exact ⟨h2.1.trans h1.1, h2.2.1.trans h1.2.1, h2.2.2.trans h1.2.2⟩

/-! ## The claims -/

/-- C1: `sim_send` registers `(msg_handler, fun_arg)` as a send callback on the entry
`search_entry` returns, without calling `create_new_entry`, when the search finds an
entry; when it finds none, it calls `create_new_entry(tag, src, dst, count, chunk_id)`
exactly once and registers the pair on the created entry. Either way it registers
exactly one send-side callback and no receive-side callback. -/
theorem sim_send_registers_send_callback {G T E : Type} (c : Collaborators G T E)
    (self : CongestionUnawareNetworkApi) (w : World G T E) (buffer : Ptr) (count : Nat)
    (type dst tag : Int) (request : Ptr) (msg_handler : MsgHandler) (fun_arg : Ptr) :
    let src := self.sim_comm_get_rank
    let chunk_id := (c.create_send_chunk_id w.chunk_id_generator tag src dst count).1
    let after := (sim_send c self w buffer count type dst tag request msg_handler fun_arg).1
    (match c.search_entry w.callback_tracker tag src dst count chunk_id with
      | some entry =>
        after.callback_tracker
            = c.register_send_callback w.callback_tracker entry msg_handler fun_arg ∧
          (calls_since w after).filter Call.is_register_send_callback
            = [Call.register_send_callback entry msg_handler fun_arg] ∧
          (calls_since w after).countP Call.is_create_new_entry = 0
      | none =>
        after.callback_tracker
            = c.register_send_callback
                (c.create_new_entry w.callback_tracker tag src dst count chunk_id).2
                (c.create_new_entry w.callback_tracker tag src dst count chunk_id).1
                msg_handler fun_arg ∧
          (calls_since w after).filter Call.is_register_send_callback
            = [Call.register_send_callback
                (c.create_new_entry w.callback_tracker tag src dst count chunk_id).1
                msg_handler fun_arg] ∧
          (calls_since w after).filter Call.is_create_new_entry
            = [Call.create_new_entry tag src dst count chunk_id]) ∧
      (calls_since w after).countP Call.is_register_send_callback = 1 ∧
      (calls_since w after).countP Call.is_register_recv_callback = 0 := by
  intro src chunk_id after
  cases hs : c.search_entry w.callback_tracker tag src dst count chunk_id with
  | some entry =>
    have hc := calls_since_append w after _
      (sim_send_calls_found c self w buffer count type dst tag request msg_handler fun_arg
        entry hs)
    have ht := sim_send_tracker_found c self w buffer count type dst tag request msg_handler
      fun_arg entry hs
    simp only [hc]
    exact ⟨⟨ht, by simp [Call.is_register_send_callback], by simp [Call.is_create_new_entry]⟩,
      by simp [Call.is_register_send_callback], by simp [Call.is_register_recv_callback]⟩
  | none =>
    have hc := calls_since_append w after _
      (sim_send_calls_not_found c self w buffer count type dst tag request msg_handler fun_arg
        hs)
    have ht := sim_send_tracker_not_found c self w buffer count type dst tag request
      msg_handler fun_arg hs
    simp only [hc]
    exact ⟨⟨ht, by simp [Call.is_register_send_callback], by simp [Call.is_create_new_entry]⟩,
      by simp [Call.is_register_send_callback], by simp [Call.is_register_recv_callback]⟩

/-- C2: with a topology set, every `sim_send` call queues exactly one request at the
scheduler, with callback `process_chunk_arrival`, after the requests already queued,
whatever the search of the tracker returns: the queue is one longer than before. -/
theorem sim_send_schedules_one_arrival {G T E : Type} (c : Collaborators G T E)
    (self : CongestionUnawareNetworkApi) (w : World G T E) (buffer : Ptr) (count : Nat)
    (type dst tag : Int) (request : Ptr) (msg_handler : MsgHandler) (fun_arg : Ptr)
    (t : Topology) (h : w.topology = some t) :
    let after := (sim_send c self w buffer count type dst tag request msg_handler fun_arg).1
    after.event_queue.length = w.event_queue.length + 1 ∧
      after.event_queue.take w.event_queue.length = w.event_queue ∧
      (events_since w after).map ScheduledEvent.fun_ptr
        = [EventCallback.process_chunk_arrival] := by
  intro after
  have hq := (sim_send_queue_and_result c self w buffer count type dst tag request msg_handler
    fun_arg t h).1
  have he := events_since_append w after _ hq
  refine ⟨?_, ?_, ?_⟩
  · simp [after, hq]
  · simp [after, hq]
  · simp [he]

/-- C3: with topology `t` set, the delay `sim_send` hands to the scheduler has unit `NS`
and magnitude `static_cast<double>(t.send(src, dst, count))` for `src` the rank of the
caller, which is the value of `t.send(src, dst, count)` itself below `2 ^ 53`; neither
the tag, nor the chunk id, nor the tracker occurs in it. -/
theorem sim_send_delay_is_topology_send {G T E : Type} (c : Collaborators G T E)
    (self : CongestionUnawareNetworkApi) (w : World G T E) (buffer : Ptr) (count : Nat)
    (type dst tag : Int) (request : Ptr) (msg_handler : MsgHandler) (fun_arg : Ptr)
    (t : Topology) (h : w.topology = some t) :
    let src := self.sim_comm_get_rank
    let after := (sim_send c self w buffer count type dst tag request msg_handler fun_arg).1
    (events_since w after).map ScheduledEvent.delta
        = [{ time_res := time_type_e.NS, time_val := u64_to_double (t.send src dst count) }] ∧
      (t.send src dst count < 2 ^ 53 →
        (events_since w after).map ScheduledEvent.delta
          = [{ time_res := time_type_e.NS, time_val := t.send src dst count }]) := by
  intro src after
  have hq := (sim_send_queue_and_result c self w buffer count type dst tag request msg_handler
    fun_arg t h).1
  have he := events_since_append w after _ hq
  refine ⟨by simp [he, src], fun hlt => ?_⟩
  simp [he, src, u64_to_double_exact _ hlt]

/-- C4: with a topology set, the payload `sim_send` hands to the scheduler is
`(tag, src, dst, count, chunk_id)` with `src` the rank of the caller and `chunk_id` the
value returned by the one call `create_send_chunk_id(tag, src, dst, count)` of this
`sim_send`; the same `chunk_id` is the one passed to `search_entry` and, when the search
finds nothing, to `create_new_entry`. -/
theorem sim_send_payload {G T E : Type} (c : Collaborators G T E)
    (self : CongestionUnawareNetworkApi) (w : World G T E) (buffer : Ptr) (count : Nat)
    (type dst tag : Int) (request : Ptr) (msg_handler : MsgHandler) (fun_arg : Ptr)
    (t : Topology) (h : w.topology = some t) :
    let src := self.sim_comm_get_rank
    let chunk_id := (c.create_send_chunk_id w.chunk_id_generator tag src dst count).1
    let after := (sim_send c self w buffer count type dst tag request msg_handler fun_arg).1
    (events_since w after).map ScheduledEvent.fun_arg = [(tag, src, dst, count, chunk_id)] ∧
      (calls_since w after).filter Call.is_create_send_chunk_id
        = [Call.create_send_chunk_id tag src dst count] ∧
      (calls_since w after).filter Call.is_search_entry
        = [Call.search_entry tag src dst count chunk_id] ∧
      (c.search_entry w.callback_tracker tag src dst count chunk_id = none →
        (calls_since w after).filter Call.is_create_new_entry
          = [Call.create_new_entry tag src dst count chunk_id]) ∧
      after.chunk_id_generator
        = (c.create_send_chunk_id w.chunk_id_generator tag src dst count).2 := by
  intro src chunk_id after
  have hq := (sim_send_queue_and_result c self w buffer count type dst tag request msg_handler
    fun_arg t h).1
  have he := events_since_append w after _ hq
  have hg : after.chunk_id_generator
      = (c.create_send_chunk_id w.chunk_id_generator tag src dst count).2 := by
    simp only [after, sim_send, call_search_entry, call_create_send_chunk_id,
      call_register_send_callback, call_create_new_entry, sim_schedule]
    cases c.search_entry w.callback_tracker tag self.sim_comm_get_rank dst count
      (c.create_send_chunk_id w.chunk_id_generator tag self.sim_comm_get_rank dst count).1 <;>
      simp [h, src]
  cases hs : c.search_entry w.callback_tracker tag src dst count chunk_id with
  | some entry =>
    have hc := calls_since_append w after _
      (sim_send_calls_found c self w buffer count type dst tag request msg_handler fun_arg
        entry hs)
    simp only [hc]
    exact ⟨by simp [he, src, chunk_id], by simp [Call.is_create_send_chunk_id, src],
      by simp [Call.is_search_entry, src, chunk_id], by simp, hg⟩
  | none =>
    have hc := calls_since_append w after _
      (sim_send_calls_not_found c self w buffer count type dst tag request msg_handler fun_arg
        hs)
    simp only [hc]
    exact ⟨by simp [he, src, chunk_id], by simp [Call.is_create_send_chunk_id, src],
      by simp [Call.is_search_entry, src, chunk_id],
      by simp [Call.is_create_new_entry, src, chunk_id], hg⟩

/-- C5: with a topology set, `sim_send` returns 0 for all arguments and every tracker
state, whether the search finds an entry or not, and the call does not invoke a
completion handler: the handler is only registered. -/
theorem sim_send_returns_zero {G T E : Type} (c : Collaborators G T E)
    (self : CongestionUnawareNetworkApi) (w : World G T E) (buffer : Ptr) (count : Nat)
    (type dst tag : Int) (request : Ptr) (msg_handler : MsgHandler) (fun_arg : Ptr)
    (t : Topology) (h : w.topology = some t) :
    (sim_send c self w buffer count type dst tag request msg_handler fun_arg).2 = Result.ok 0 ∧
      (calls_since w
        (sim_send c self w buffer count type dst tag request msg_handler fun_arg).1).countP
          Call.is_invoke_handler = 0 := by
  refine ⟨(sim_send_queue_and_result c self w buffer count type dst tag request msg_handler
    fun_arg t h).2, ?_⟩
  cases hs : c.search_entry w.callback_tracker tag self.sim_comm_get_rank dst count
      (c.create_send_chunk_id w.chunk_id_generator tag self.sim_comm_get_rank dst count).1 with
  | some entry =>
    rw [calls_since_append w _ _
      (sim_send_calls_found c self w buffer count type dst tag request msg_handler fun_arg
        entry hs)]
    simp [Call.is_invoke_handler]
  | none =>
    rw [calls_since_append w _ _
      (sim_send_calls_not_found c self w buffer count type dst tag request msg_handler fun_arg
        hs)]
    simp [Call.is_invoke_handler]

/-- C6: two `sim_send` calls with the same source rank, destination and count, made
with the same topology set, hand the same single delay to the scheduler, whatever
their tags, buffers, types, requests, handlers, handler arguments, generators and
trackers. -/
theorem sim_send_delay_deterministic {G T E G2 T2 E2 : Type}
    (c : Collaborators G T E) (c2 : Collaborators G2 T2 E2)
    (self self2 : CongestionUnawareNetworkApi) (w : World G T E) (w2 : World G2 T2 E2)
    (buffer buffer2 : Ptr) (count : Nat) (type type2 dst tag tag2 : Int)
    (request request2 : Ptr) (msg_handler msg_handler2 : MsgHandler) (fun_arg fun_arg2 : Ptr)
    (t : Topology) (h : w.topology = some t) (h2 : w2.topology = some t)
    (hrank : self.sim_comm_get_rank = self2.sim_comm_get_rank) :
    ∃ delta : timespec_t,
      (events_since w
        (sim_send c self w buffer count type dst tag request msg_handler fun_arg).1).map
          ScheduledEvent.delta = [delta] ∧
      (events_since w2
        (sim_send c2 self2 w2 buffer2 count type2 dst tag2 request2 msg_handler2 fun_arg2).1).map
          ScheduledEvent.delta = [delta] := by
  have hq := (sim_send_queue_and_result c self w buffer count type dst tag request msg_handler
    fun_arg t h).1
  have hq2 := (sim_send_queue_and_result c2 self2 w2 buffer2 count type2 dst tag2 request2
    msg_handler2 fun_arg2 t h2).1
  refine ⟨{ time_res := time_type_e.NS,
            time_val := u64_to_double (t.send self.sim_comm_get_rank dst count) }, ?_, ?_⟩
  · simp [events_since_append w _ _ hq]
  · simp [events_since_append w2 _ _ hq2, hrank]

/-- C7: for a topology `t` (a non-null pointer), `set_topology(t)` returns with the
stored topology `t`, `dims_count` equal to `t.get_dims_count()` and
`bandwidth_per_dim` equal to `t.get_bandwidth_per_dim()`. -/
theorem set_topology_stores {G T E : Type} (w : World G T E) (t : Topology) :
    (set_topology w (some t)).2 = Result.ok () ∧
      (set_topology w (some t)).1.topology = some t ∧
      (set_topology w (some t)).1.dims_count = t.get_dims_count ∧
      (set_topology w (some t)).1.bandwidth_per_dim = t.get_bandwidth_per_dim := by
  simp [set_topology]

/-- C8: `set_topology` fails, by its assertion, exactly when it is given the null
pointer, and on that failure the state, with the stored topology, `dims_count` and
`bandwidth_per_dim`, is the state before the call. -/
theorem set_topology_fails_iff_null {G T E : Type} (w : World G T E)
    (topology_ptr : Option Topology) :
    ((set_topology w topology_ptr).2 ≠ Result.ok () ↔ topology_ptr = none) ∧
      ((set_topology w topology_ptr).2 = Result.assertion_failed ↔ topology_ptr = none) ∧
      ((set_topology w topology_ptr).2 ≠ Result.ok () →
        (set_topology w topology_ptr).1.topology = w.topology ∧
          (set_topology w topology_ptr).1.dims_count = w.dims_count ∧
          (set_topology w topology_ptr).1.bandwidth_per_dim = w.bandwidth_per_dim) := by
  cases topology_ptr <;> simp [set_topology]

/-- C9: constructing an object with rank `r` fails by assertion exactly when `r < 0`,
and for every `r >= 0` it succeeds with the base class constructed from `r`. -/
theorem construct_fails_iff_negative (r : Int) :
    (CongestionUnawareNetworkApi.construct r = Result.assertion_failed ↔ r < 0) ∧
      (CongestionUnawareNetworkApi.construct r = Result.ok { base := { rank := r } } ↔ 0 ≤ r) := by
  unfold CongestionUnawareNetworkApi.construct
  by_cases hr : r ≥ 0
  · simp [hr]
  · simp [hr]
    omega

/-- C10, as amended: after `set_topology(t1)`, no sequence of `sim_send` calls
changes the stored topology, `dims_count` or `bandwidth_per_dim`; a further
`set_topology(t2)` is not rejected and replaces all three by `t2` and its values. -/
theorem statics_after_set_topology {G T E : Type} (c : Collaborators G T E) (w : World G T E)
    (t1 t2 : Topology) (rs : List SendRequest) :
    let after := sim_send_all c (set_topology w (some t1)).1 rs
    (after.topology = some t1 ∧
        after.dims_count = t1.get_dims_count ∧
        after.bandwidth_per_dim = t1.get_bandwidth_per_dim) ∧
      ((set_topology after (some t2)).2 = Result.ok () ∧
        (set_topology after (some t2)).1.topology = some t2 ∧
        (set_topology after (some t2)).1.dims_count = t2.get_dims_count ∧
        (set_topology after (some t2)).1.bandwidth_per_dim = t2.get_bandwidth_per_dim) := by
  intro after
  have hs := sim_send_all_statics c rs (set_topology w (some t1)).1
  refine ⟨⟨?_, ?_, ?_⟩, by simp [set_topology]⟩
  · exact hs.1.trans (by simp [set_topology])
  · exact hs.2.1.trans (by simp [set_topology])
  · exact hs.2.2.trans (by simp [set_topology])

/-- C10, as stated, fails: after a successful `set_topology(ring_topology)`, a further
`set_topology(mesh_topology)` succeeds and changes the stored topology, `dims_count`
and `bandwidth_per_dim`. -/
theorem set_topology_twice_replaces :
    (set_topology initial_world (some ring_topology)).2 = Result.ok () ∧
      (set_topology (set_topology initial_world (some ring_topology)).1
        (some mesh_topology)).2 = Result.ok () ∧
      (set_topology (set_topology initial_world (some ring_topology)).1
        (some mesh_topology)).1.topology
          ≠ (set_topology initial_world (some ring_topology)).1.topology ∧
      (set_topology (set_topology initial_world (some ring_topology)).1
        (some mesh_topology)).1.dims_count
          ≠ (set_topology initial_world (some ring_topology)).1.dims_count ∧
      (set_topology (set_topology initial_world (some ring_topology)).1
        (some mesh_topology)).1.bandwidth_per_dim
          ≠ (set_topology initial_world (some ring_topology)).1.bandwidth_per_dim := by
  refine ⟨rfl, rfl, ?_, by decide, by decide⟩
  intro h
  have hd : mesh_topology.get_dims_count = ring_topology.get_dims_count :=
    congrArg Topology.get_dims_count (Option.some.inj h)
  exact absurd hd (by decide)

/-! ## The claims at concrete calls -/

/-- C2 at rank 2 sending 64 bytes to rank 3 with tag 1, once with the matching receive
tracked and once with nothing tracked: one request queued each time. -/
theorem sim_send_schedules_one_arrival_witness :
    (pending_recv_world.topology = some ring_topology ∧
      (sim_send tracker_collaborators rank_two pending_recv_world 0 64 0 3 1 0 500 501).1.event_queue.length
        = 1) ∧
    (fresh_world.topology = some ring_topology ∧
      (sim_send tracker_collaborators rank_two fresh_world 0 64 0 3 1 0 500 501).1.event_queue.length
        = 1) :=
  ⟨⟨rfl, (sim_send_schedules_one_arrival tracker_collaborators rank_two pending_recv_world
      0 64 0 3 1 0 500 501 ring_topology rfl).1⟩,
   ⟨rfl, (sim_send_schedules_one_arrival tracker_collaborators rank_two fresh_world
      0 64 0 3 1 0 500 501 ring_topology rfl).1⟩⟩

/-- C3 at rank 2 sending 64 bytes to rank 3 over the ring topology: the delay is
640 ns. -/
theorem sim_send_delay_is_topology_send_witness :
    pending_recv_world.topology = some ring_topology ∧
      (events_since pending_recv_world
        (sim_send tracker_collaborators rank_two pending_recv_world 0 64 0 3 1 0 500 501).1).map
          ScheduledEvent.delta = [{ time_res := time_type_e.NS, time_val := 640 }] :=
  ⟨rfl, (sim_send_delay_is_topology_send tracker_collaborators rank_two pending_recv_world
      0 64 0 3 1 0 500 501 ring_topology rfl).2 (by decide)⟩

/-- C4 at rank 2 sending 64 bytes to rank 3 with tag 1 and nothing tracked: the payload
carries chunk id 0, the id given to `create_new_entry`. -/
theorem sim_send_payload_witness :
    fresh_world.topology = some ring_topology ∧
      (events_since fresh_world
        (sim_send tracker_collaborators rank_two fresh_world 0 64 0 3 1 0 500 501).1).map
          ScheduledEvent.fun_arg = [(1, 2, 3, 64, 0)] ∧
      (calls_since fresh_world
        (sim_send tracker_collaborators rank_two fresh_world 0 64 0 3 1 0 500 501).1).filter
          Call.is_create_new_entry = [Call.create_new_entry 1 2 3 64 0] :=
  ⟨rfl,
   (sim_send_payload tracker_collaborators rank_two fresh_world
      0 64 0 3 1 0 500 501 ring_topology rfl).1,
   (sim_send_payload tracker_collaborators rank_two fresh_world
      0 64 0 3 1 0 500 501 ring_topology rfl).2.2.2.1 rfl⟩

/-- C5 at rank 2 sending 64 bytes to rank 3 with the matching receive tracked: the
call returns 0. -/
theorem sim_send_returns_zero_witness :
    pending_recv_world.topology = some ring_topology ∧
      (sim_send tracker_collaborators rank_two pending_recv_world 0 64 0 3 1 0 500 501).2
        = Result.ok 0 :=
  ⟨rfl, (sim_send_returns_zero tracker_collaborators rank_two pending_recv_world
      0 64 0 3 1 0 500 501 ring_topology rfl).1⟩

/-- C6 at two sends of 64 bytes from rank 2 to rank 3, one with tag 1 and the receive
tracked, one with tag 9, another handler and nothing tracked: the same delay. -/
theorem sim_send_delay_deterministic_witness :
    (pending_recv_world.topology = some ring_topology ∧
      fresh_world.topology = some ring_topology ∧
      rank_two.sim_comm_get_rank = rank_two.sim_comm_get_rank) ∧
    ∃ delta : timespec_t,
      (events_since pending_recv_world
        (sim_send tracker_collaborators rank_two pending_recv_world 0 64 0 3 1 0 500 501).1).map
          ScheduledEvent.delta = [delta] ∧
      (events_since fresh_world
        (sim_send tracker_collaborators rank_two fresh_world 7 64 4 3 9 8 600 601).1).map
          ScheduledEvent.delta = [delta] :=
  ⟨⟨rfl, rfl, rfl⟩,
   sim_send_delay_deterministic tracker_collaborators tracker_collaborators rank_two rank_two
     pending_recv_world fresh_world 0 7 64 0 4 3 1 9 0 8 500 600 501 601 ring_topology
     rfl rfl rfl⟩

end AstraSim
